import Mathlib

/-!
Verification development for the purple_air_api repository
(`purpleair/channel.py` and `purpleair/sensor.py`).

The Python code is shallowly embedded:

* Python runtime values reaching the modelled code are `PyVal`
  (`None`, `bool`, `int`, `float`, `str`, `list`, `dict`, `datetime`).
  Python `float`s are modelled as exact rationals; the claims checked here
  never depend on binary floating-point rounding.
* Python dictionaries are association lists in insertion order, with
  assignment replacing the first occurrence in place (as CPython dicts keep
  the original insertion position of an updated key).
* Raising code is modelled in the `Except PyErr` monad; the `PyErr`
  constructors mirror the distinct Python exception classes raised by the
  embedded code paths.
* `datetime` values are modelled by their UTC epoch value (a rational number
  of seconds); `datetime.utcfromtimestamp` checks the representable range of
  `datetime` (year 1 to year 9999).
-/

set_option maxHeartbeats 1000000
set_option maxRecDepth 100000

/- Rational arithmetic is used to model Python numbers; Batteries marks the
`Rat` field operations irreducible, but they must unfold for the concrete
evaluations below, so restore their reducibility locally. -/
set_option allowUnsafeReducibility true
attribute [local semireducible] Rat.add Rat.sub Rat.mul Rat.div Rat.inv

/-- A Python runtime value, as far as the embedded code can observe it. -/
inductive PyVal where
  | none : PyVal
  | bool : Bool → PyVal
  | int : Int → PyVal
  | float : ℚ → PyVal
  | str : String → PyVal
  | list : List PyVal → PyVal
  | dict : List (String × PyVal) → PyVal
  | dt : ℚ → PyVal
  deriving Inhabited

/-- The Python exception classes that the embedded code can raise.
`jsonDecodeError` is `json.JSONDecodeError` (a `ValueError` subclass);
it is kept separate so that theorems can name it precisely. -/
inductive PyErr where
  | keyError : String → PyErr
  | typeError : PyErr
  | valueError : String → PyErr
  | attributeError : PyErr
  | jsonDecodeError : PyErr
  | overflowError : PyErr
  deriving DecidableEq, Inhabited

/-- A raw attribute mapping (`channel_data` / `self.data`): a Python dict of
string keys, in insertion order. -/
abbrev RawAttrs := List (String × PyVal)

/-- First-occurrence association-list lookup; models reading a key of a
Python dict (whose keys are unique, so first-occurrence is exact). -/
def dlookup (d : List (String × PyVal)) (k : String) : Option PyVal :=
  match d with
  | [] => Option.none
  | (k2, v) :: t => if k2 = k then some v else dlookup t k

/-- Models `d.get(k)`: the stored value, or `None` when the key is absent. -/
def dget (d : List (String × PyVal)) (k : String) : PyVal :=
  (dlookup d k).getD PyVal.none

/-- Models `k in d`. -/
def hasKey (d : List (String × PyVal)) (k : String) : Bool :=
  (dlookup d k).isSome

/-- Models `d[k]`: the stored value, or a `KeyError` when the key is absent. -/
def ditem (d : List (String × PyVal)) (k : String) : Except PyErr PyVal :=
  match dlookup d k with
  | some v => .ok v
  | Option.none => .error (.keyError k)

/-- Models `d[k] = v` on a Python dict: replaces the value of the first
occurrence of `k` in place, or appends a new entry at the end. -/
def dictInsert (d : List (String × PyVal)) (k : String) (v : PyVal) :
    List (String × PyVal) :=
  match d with
  | [] => [(k, v)]
  | (k2, v2) :: t => if k2 = k then (k, v) :: t else (k2, v2) :: dictInsert t k v

/-- Models `if k not in d: d[k] = v` (used when filling default arguments). -/
def dictSetDefault (d : List (String × PyVal)) (k : String) (v : PyVal) :
    List (String × PyVal) :=
  if hasKey d k then d else d ++ [(k, v)]

/-- First-some choice on optional values (used to state lookup laws). -/
def optOr (a b : Option PyVal) : Option PyVal :=
  match a with
  | some v => some v
  | Option.none => b

/-- The numeric value of a Python number (`bool` is an `int` subclass), or
`none` for non-numeric values. -/
def pyNum? : PyVal → Option ℚ
  | .int n => some (n : ℚ)
  | .float q => some q
  | .bool b => some (if b then 1 else 0)
  | _ => Option.none

mutual

/-- Models Python `==` on the values the embedded code compares.
Numbers (including `bool`) compare numerically; strings, datetimes, lists and
dicts compare componentwise; values of different categories compare unequal. -/
def pyEq : PyVal → PyVal → Bool
  | .int a, .int b => a == b
  | .int a, .float b => (a : ℚ) == b
  | .int a, .bool b => (a : ℚ) == (if b then 1 else 0)
  | .float a, .int b => a == (b : ℚ)
  | .float a, .float b => a == b
  | .float a, .bool b => a == (if b then 1 else 0)
  | .bool a, .int b => ((if a then 1 else 0) : ℚ) == (b : ℚ)
  | .bool a, .float b => ((if a then 1 else 0) : ℚ) == b
  | .bool a, .bool b => a == b
  | .none, .none => true
  | .str a, .str b => a == b
  | .dt a, .dt b => a == b
  | .list a, .list b => pyEqL a b
  | .dict a, .dict b => pyEqD a b
  | _, _ => false

/-- Elementwise Python `==` on lists. -/
def pyEqL : List PyVal → List PyVal → Bool
  | [], [] => true
  | a :: as1, b :: bs1 => pyEq a b && pyEqL as1 bs1
  | _, _ => false

/-- Entrywise Python `==` on dicts (dict comparisons never occur in the
modelled code paths, so insertion-order sensitivity is unobservable here). -/
def pyEqD : List (String × PyVal) → List (String × PyVal) → Bool
  | [], [] => true
  | (k, a) :: as1, (l, b) :: bs1 => k == l && pyEq a b && pyEqD as1 bs1
  | _, _ => false

end

/-- Models Python truthiness (`if x:`). -/
def pyTruthy : PyVal → Bool
  | .none => false
  | .bool b => b
  | .int n => !(n == 0)
  | .float q => !(q == 0)
  | .str s => !s.isEmpty
  | .list l => !l.isEmpty
  | .dict l => !l.isEmpty
  | .dt _ => true

/-- Whitespace characters stripped by Python numeric conversion and JSON. -/
def isSpaceChar (c : Char) : Bool :=
  c = ' ' || c = '\t' || c = '\n' || c = '\r'

/-- Value of a list of decimal digits. -/
def digitsVal (ds : List Char) : Nat :=
  ds.foldl (fun a c => a * 10 + (c.toNat - 48)) 0

/-- Consume an optional leading sign; returns whether it was a minus. -/
def parseSign : List Char → (Bool × List Char)
  | '-' :: t => (true, t)
  | '+' :: t => (false, t)
  | cs => (false, cs)

/-- Mantissa of a Python float literal: `digits [. digits]` or `. digits`. -/
def parseUnsignedFloat (cs : List Char) : Option (ℚ × List Char) :=
  let ip := cs.takeWhile Char.isDigit
  let r1 := cs.dropWhile Char.isDigit
  match r1 with
  | '.' :: r2 =>
    let fp := r2.takeWhile Char.isDigit
    let r3 := r2.dropWhile Char.isDigit
    if ip.isEmpty && fp.isEmpty then Option.none
    else some ((digitsVal ip : ℚ) + (digitsVal fp : ℚ) / (10 : ℚ) ^ fp.length, r3)
  | _ => if ip.isEmpty then Option.none else some ((digitsVal ip : ℚ), r1)

/-- Optional exponent part of a Python float literal. -/
def parseFloatExp : List Char → Option (Int × List Char)
  | 'e' :: t | 'E' :: t =>
    let (neg, t2) := parseSign t
    let ds := t2.takeWhile Char.isDigit
    let r := t2.dropWhile Char.isDigit
    if ds.isEmpty then Option.none
    else some ((if neg then -(digitsVal ds : Int) else (digitsVal ds : Int)), r)
  | cs => some (0, cs)

/-- Models `float(s)` on a string: optional surrounding whitespace, optional
sign, decimal mantissa, optional exponent.  (`inf`, `nan` and digit
underscores are not modelled; they do not occur in the verified claims.) -/
def parsePyFloat (s : String) : Option ℚ :=
  let cs := s.data.dropWhile isSpaceChar
  let cs := (cs.reverse.dropWhile isSpaceChar).reverse
  let (neg, cs1) := parseSign cs
  match parseUnsignedFloat cs1 with
  | Option.none => Option.none
  | some (m, r) =>
    match parseFloatExp r with
    | Option.none => Option.none
    | some (e, r2) =>
      if r2.isEmpty then some ((if neg then -m else m) * (10 : ℚ) ^ e)
      else Option.none

/-- Models `int(s)` on a string: optional surrounding whitespace, optional
sign, decimal digits, nothing else. -/
def parsePyIntStr (s : String) : Option Int :=
  let cs := s.data.dropWhile isSpaceChar
  let cs := (cs.reverse.dropWhile isSpaceChar).reverse
  let (neg, cs1) := parseSign cs
  let ds := cs1.takeWhile Char.isDigit
  let r := cs1.dropWhile Char.isDigit
  if ds.isEmpty || !r.isEmpty then Option.none
  else some (if neg then -(digitsVal ds : Int) else (digitsVal ds : Int))

/-- Models `float(v)`: numbers pass through (`bool` counts as a number),
strings are parsed (`ValueError` on failure), everything else raises
`TypeError`. -/
def pyFloatConv : PyVal → Except PyErr ℚ
  | .float q => .ok q
  | .int n => .ok (n : ℚ)
  | .bool b => .ok (if b then 1 else 0)
  | .str s =>
    match parsePyFloat s with
    | some q => .ok q
    | Option.none => .error (.valueError "could not convert string to float")
  | _ => .error .typeError

/-- Truncation toward zero, as Python `int(float)` behaves. -/
def ratTrunc (q : ℚ) : Int :=
  if q < 0 then -((-q).floor) else q.floor

/-- Models `int(v)`: integers and booleans pass through, floats truncate
toward zero, strings are parsed strictly (`ValueError` on failure),
everything else raises `TypeError`. -/
def pyInt : PyVal → Except PyErr Int
  | .int n => .ok n
  | .bool b => .ok (if b then 1 else 0)
  | .float q => .ok (ratTrunc q)
  | .str s =>
    match parsePyIntStr s with
    | some n => .ok n
    | Option.none => .error (.valueError "invalid literal for int")
  | _ => .error .typeError

/-- Models `datetime.utcfromtimestamp(q)` for a numeric epoch value:
produces the datetime (kept as its epoch value) when it falls inside the
range representable by `datetime` (year 1 to year 9999), and raises
otherwise. -/
def utcfromtimestamp (q : ℚ) : Except PyErr PyVal :=
  if (-62135596800 : ℚ) ≤ q ∧ q < 253402300800 then .ok (.dt q)
  else .error .overflowError

/-- Models `datetime.utcfromtimestamp(v)` applied directly to a raw value:
non-numeric arguments raise `TypeError`. -/
def utcfromtimestampVal (v : PyVal) : Except PyErr PyVal :=
  match pyNum? v with
  | some q => utcfromtimestamp q
  | Option.none => .error .typeError

/-- Opening curly brace character (written via its code point). -/
def jOpenBrace : Char := Char.ofNat 123

/-- Closing curly brace character (written via its code point). -/
def jCloseBrace : Char := Char.ofNat 125

/-- Hexadecimal digit value. -/
def hexVal (c : Char) : Option Nat :=
  if '0' ≤ c && c ≤ '9' then some (c.toNat - 48)
  else if 'a' ≤ c && c ≤ 'f' then some (c.toNat - 87)
  else if 'A' ≤ c && c ≤ 'F' then some (c.toNat - 55)
  else Option.none

/-- Simple JSON string escapes. -/
def jsonEsc (c : Char) : Option Char :=
  if c = '"' then some '"'
  else if c = '\\' then some '\\'
  else if c = '/' then some '/'
  else if c = 'n' then some '\n'
  else if c = 't' then some '\t'
  else if c = 'r' then some '\r'
  else if c = 'b' then some (Char.ofNat 8)
  else if c = 'f' then some (Char.ofNat 12)
  else Option.none

/-- JSON number literal (after the leading character has been recognised as
a digit or minus sign): integer form yields a Python `int`, a fraction or an
exponent yields a Python `float` — as `json.loads` behaves. -/
def parseJExpOpt (m : ℚ) : List Char → Except PyErr (PyVal × List Char)
  | 'e' :: t | 'E' :: t =>
    let (eneg, t2) := parseSign t
    let ds := t2.takeWhile Char.isDigit
    let r := t2.dropWhile Char.isDigit
    if ds.isEmpty then .error .jsonDecodeError
    else .ok (.float (m * (10 : ℚ) ^
      (if eneg then -(digitsVal ds : Int) else (digitsVal ds : Int))), r)
  | cs => .ok (.float m, cs)

/-- Parse a JSON number starting at `cs`. -/
def parseJNumber (cs : List Char) : Except PyErr (PyVal × List Char) :=
  let (neg, cs1) := match cs with | '-' :: t => (true, t) | _ => (false, cs)
  let ip := cs1.takeWhile Char.isDigit
  let r1 := cs1.dropWhile Char.isDigit
  if ip.isEmpty then .error .jsonDecodeError
  else
    match r1 with
    | '.' :: t =>
      let fp := t.takeWhile Char.isDigit
      let r2 := t.dropWhile Char.isDigit
      if fp.isEmpty then .error .jsonDecodeError
      else
        let m : ℚ := (digitsVal ip : ℚ) + (digitsVal fp : ℚ) / (10 : ℚ) ^ fp.length
        parseJExpOpt (if neg then -m else m) r2
    | 'e' :: _ | 'E' :: _ =>
      parseJExpOpt (if neg then -(digitsVal ip : ℚ) else (digitsVal ip : ℚ)) r1
    | _ => .ok (.int (if neg then -(digitsVal ip : Int) else (digitsVal ip : Int)), r1)

mutual

/-- Parse one JSON value (fuelled recursion; the fuel supplied by
`json_loads` is always sufficient, so running out models no real branch). -/
def parseJVal : Nat → List Char → Except PyErr (PyVal × List Char)
  | 0, _ => .error .jsonDecodeError
  | fuel + 1, cs =>
    match cs.dropWhile isSpaceChar with
    | 'n' :: 'u' :: 'l' :: 'l' :: r => .ok (.none, r)
    | 't' :: 'r' :: 'u' :: 'e' :: r => .ok (.bool true, r)
    | 'f' :: 'a' :: 'l' :: 's' :: 'e' :: r => .ok (.bool false, r)
    | '"' :: r => do
      let (s, r2) ← parseJStr fuel r
      .ok (.str s, r2)
    | '[' :: r =>
      (match r.dropWhile isSpaceChar with
      | ']' :: r2 => .ok (.list [], r2)
      | _ => do
        let (vs, r2) ← parseJArr fuel r
        .ok (.list vs, r2))
    | c :: r =>
      if c = jOpenBrace then
        match r.dropWhile isSpaceChar with
        | c2 :: r2 =>
          if c2 = jCloseBrace then .ok (.dict [], r2)
          else do
            let (kvs, r3) ← parseJObj fuel r
            .ok (.dict (kvs.foldl (fun a kv => dictInsert a kv.1 kv.2) []), r3)
        | [] => .error .jsonDecodeError
      else parseJNumber (c :: r)
    | [] => .error .jsonDecodeError

/-- Parse the remainder of a JSON string literal (opening quote consumed). -/
def parseJStr : Nat → List Char → Except PyErr (String × List Char)
  | 0, _ => .error .jsonDecodeError
  | fuel + 1, cs =>
    match cs with
    | '"' :: r => .ok ("", r)
    | '\\' :: 'u' :: a :: b :: c :: d :: r =>
      (match hexVal a, hexVal b, hexVal c, hexVal d with
      | some x, some y, some z, some w => do
        let (s, r2) ← parseJStr fuel r
        .ok (String.singleton (Char.ofNat (((x * 16 + y) * 16 + z) * 16 + w)) ++ s, r2)
      | _, _, _, _ => .error .jsonDecodeError)
    | '\\' :: e :: r =>
      (match jsonEsc e with
      | some c => do
        let (s, r2) ← parseJStr fuel r
        .ok (String.singleton c ++ s, r2)
      | Option.none => .error .jsonDecodeError)
    | c :: r => do
      let (s, r2) ← parseJStr fuel r
      .ok (String.singleton c ++ s, r2)
    | [] => .error .jsonDecodeError

/-- Parse the elements of a non-empty JSON array (opening bracket consumed). -/
def parseJArr : Nat → List Char → Except PyErr (List PyVal × List Char)
  | 0, _ => .error .jsonDecodeError
  | fuel + 1, cs => do
    let (v, r) ← parseJVal fuel cs
    match r.dropWhile isSpaceChar with
    | ',' :: r2 => do
      let (vs, r3) ← parseJArr fuel r2
      .ok (v :: vs, r3)
    | ']' :: r2 => .ok ([v], r2)
    | _ => .error .jsonDecodeError

/-- Parse the members of a non-empty JSON object (opening brace consumed). -/
def parseJObj : Nat → List Char → Except PyErr (List (String × PyVal) × List Char)
  | 0, _ => .error .jsonDecodeError
  | fuel + 1, cs =>
    match cs.dropWhile isSpaceChar with
    | '"' :: r => do
      let (k, r2) ← parseJStr fuel r
      (match r2.dropWhile isSpaceChar with
      | ':' :: r3 => do
        let (v, r4) ← parseJVal fuel r3
        match r4.dropWhile isSpaceChar with
        | ',' :: r5 => do
          let (kvs, r6) ← parseJObj fuel r5
          .ok ((k, v) :: kvs, r6)
        | c :: r5 =>
          if c = jCloseBrace then .ok ([(k, v)], r5)
          else .error .jsonDecodeError
        | [] => .error .jsonDecodeError
      | _ => .error .jsonDecodeError)
    | _ => .error .jsonDecodeError

end

/-- Models `json.loads(v)`: only strings are accepted (`TypeError`
otherwise); the whole input must be one JSON value surrounded by at most
whitespace (`json.JSONDecodeError` otherwise). -/
def json_loads : PyVal → Except PyErr PyVal
  | .str s =>
    (match parseJVal ((s.length + 1) * 4 + 16) s.data with
    | .ok (v, r) =>
      if (r.dropWhile isSpaceChar).isEmpty then .ok v else .error .jsonDecodeError
    | .error e => .error e)
  | _ => .error .typeError

/-- Is a value Python `None`? -/
def isNone : PyVal → Bool
  | .none => true
  | _ => false

/-- Models `v.get(k)`: only dicts have a `get` method, so any other value
raises `AttributeError`. -/
def pyGetMethod (v : PyVal) (k : String) : Except PyErr PyVal :=
  match v with
  | .dict kvs => .ok (dget kvs k)
  | _ => .error .attributeError

/-- Models `Channel.safe_float` (channel.py lines 32-44): `channel_data.get(key)`,
then `float(...)` when the value is not `None`, with `TypeError` and
`ValueError` both caught to `None`; `float` raises nothing else here. -/
def safe_float (d : RawAttrs) (k : String) : PyVal :=
  match dget d k with
  | .none => PyVal.none
  | v =>
    match pyFloatConv v with
    | .ok q => .float q
    | .error _ => PyVal.none

/-- The statistics attributes computed by `Channel.setup` (channel.py
lines 85-107). -/
structure StatsData where
  pm2_5stats : PyVal
  m10avg : PyVal
  m30avg : PyVal
  h1ravg : PyVal
  h6ravg : PyVal
  d1avg : PyVal
  w1avg : PyVal
  last_modified_stats : PyVal
  last2_modified : PyVal
  deriving Inhabited

/-- Models channel.py lines 88-99: six lines of the form
`self.pm2_5stats.get('vN') if self.pm2_5stats else None`.  When the parsed
statistics value is truthy but not a dict, the first `.get` raises
`AttributeError` (so none of the six is produced), which is exactly what the
first of the six source lines does. -/
def statsAvgs (ps : PyVal) : Except PyErr (PyVal × PyVal × PyVal × PyVal × PyVal × PyVal) :=
  if pyTruthy ps then
    match ps with
    | .dict kvs =>
      .ok (dget kvs "v1", dget kvs "v2", dget kvs "v3",
           dget kvs "v4", dget kvs "v5", dget kvs "v6")
    | _ => .error .attributeError
  else .ok (.none, .none, .none, .none, .none, .none)

/-- Models channel.py lines 86-87: `json.loads(self.channel_data['Stats'])
if 'Stats' in self.channel_data else None` — the argument is the raw
`Stats` entry when the key is present.  Note the source does not wrap the
parse in `try`. -/
def stats_json (v? : Option PyVal) : Except PyErr PyVal :=
  match v? with
  | some v => json_loads v
  | Option.none => .ok PyVal.none

/-- Models channel.py lines 85-107, the statistics section of
`Channel.setup`: the `Stats` parse, the six rolling averages, and the two
modification fields. -/
def stats_part (v? : Option PyVal) : Except PyErr StatsData :=
  match stats_json v? with
  | .error e => .error e
  | .ok ps =>
    match statsAvgs ps with
    | .error e => .error e
    | .ok (v1, v2, v3, v4, v5, v6) =>
      match (if isNone ps then Except.ok PyVal.none
             else pyGetMethod ps "lastModified") with
      | .error e => .error e
      | .ok lm =>
        match (if isNone lm then Except.ok PyVal.none
               else match pyInt lm with
                    | .error e => .error e
                    | .ok i => utcfromtimestamp ((i : ℚ) / 1000)) with
        | .error e => .error e
        | .ok lms =>
          match (if isNone ps then Except.ok PyVal.none
                 else pyGetMethod ps "timeSinceModified") with
          | .error e => .error e
          | .ok l2 => .ok ⟨ps, v1, v2, v3, v4, v5, v6, lms, l2⟩

/-- Models channel.py lines 130-135: `LastSeen` is read with `.get`, and when
it is not `None` it is passed through `int(...)` (which can raise) and
`datetime.utcfromtimestamp`. -/
def lastseen_part (v : PyVal) : Except PyErr PyVal :=
  if isNone v then .ok PyVal.none
  else
    match pyInt v with
    | .error e => .error e
    | .ok i => utcfromtimestamp (i : ℚ)

/-- The four ThingSpeak identity attributes plus whether the two feed handles
were constructed. -/
structure TSIds where
  primary_id : PyVal
  primary_key : PyVal
  secondary_id : PyVal
  secondary_key : PyVal
  resolved : Bool
  deriving Inhabited

/-- Models channel.py lines 109-127: the four identity keys are read with
raising `[]` access inside one `try`; a `KeyError` on any of them resets all
four attributes (and both handles) to `None`.  A key that is present — even
with value `None` — does not raise, so all four values are kept whenever all
four keys are present.  Constructing the `thingspeak.Channel` handles
performs no I/O. -/
def resolve_thingspeak (d : RawAttrs) : TSIds :=
  match dlookup d "THINGSPEAK_PRIMARY_ID", dlookup d "THINGSPEAK_PRIMARY_ID_READ_KEY",
        dlookup d "THINGSPEAK_SECONDARY_ID", dlookup d "THINGSPEAK_SECONDARY_ID_READ_KEY" with
  | some a, some b, some c, some e => ⟨a, b, c, e, true⟩
  | _, _, _, _ => ⟨PyVal.none, PyVal.none, PyVal.none, PyVal.none, false⟩

/-- The normalized channel record built by `Channel.setup`. -/
structure ChannelRec where
  lat : PyVal
  lon : PyVal
  identifier : PyVal
  parent : PyVal
  type : String
  name : PyVal
  location_type : PyVal
  current_pm2_5 : PyVal
  current_temp_f : PyVal
  current_temp_c : PyVal
  current_humidity : PyVal
  current_pressure : PyVal
  current_p_0_3_um : PyVal
  current_p_0_5_um : PyVal
  current_p_1_0_um : PyVal
  current_p_2_5_um : PyVal
  current_p_5_0_um : PyVal
  current_p_10_0_um : PyVal
  current_pm1_0_cf_1 : PyVal
  current_pm2_5_cf_1 : PyVal
  current_pm10_0_cf_1 : PyVal
  current_pm1_0_atm : PyVal
  current_pm2_5_atm : PyVal
  current_pm10_0_atm : PyVal
  pm2_5stats : PyVal
  m10avg : PyVal
  m30avg : PyVal
  h1ravg : PyVal
  h6ravg : PyVal
  d1avg : PyVal
  w1avg : PyVal
  last_modified_stats : PyVal
  last2_modified : PyVal
  tp_primary_channel : PyVal
  tp_primary_key : PyVal
  tp_secondary_channel : PyVal
  tp_secondary_key : PyVal
  thingspeak_primary : Option (PyVal × PyVal)
  thingspeak_secondary : Option (PyVal × PyVal)
  last_seen : PyVal
  model : PyVal
  adc : PyVal
  rssi : PyVal
  hidden : Bool
  flagged : Bool
  downgraded : Bool
  age : PyVal
  brightness : PyVal
  hardware : PyVal
  version : PyVal
  last_update_check : PyVal
  created : PyVal
  uptime : PyVal
  is_owner : Bool
  deriving Inhabited

/-- Models `Channel.setup` (channel.py lines 46-158), the construction of the
normalized record from the raw attribute mapping.  The only two places where
the source can raise are the statistics section (lines 85-107) and the
`LastSeen` coercion (lines 130-135); every other extraction is a `get` or a
`safe_float`, which never raise. -/
def channel_setup (d : RawAttrs) : Except PyErr ChannelRec :=
  match stats_part (dlookup d "Stats") with
  | .error e => .error e
  | .ok st =>
    match lastseen_part (dget d "LastSeen") with
    | .error e => .error e
    | .ok ls =>
      let tsp := resolve_thingspeak d
      let tf := safe_float d "temp_f"
      .ok {
        lat := safe_float d "Lat"
        lon := safe_float d "Lon"
        identifier := dget d "ID"
        parent := dget d "ParentID"
        type := if isNone (dget d "ParentID") then "parent" else "child"
        name := dget d "Label"
        location_type := dget d "DEVICE_LOCATIONTYPE"
        current_pm2_5 := safe_float d "PM2_5Value"
        current_temp_f := tf
        current_temp_c :=
          match tf with
          | .float q => .float ((q - 32) * (5 / 9))
          | _ => PyVal.none
        current_humidity := safe_float d "humidity"
        current_pressure := safe_float d "pressure"
        current_p_0_3_um := safe_float d "p_0_3_um"
        current_p_0_5_um := safe_float d "p_0_5_um"
        current_p_1_0_um := safe_float d "p_1_0_um"
        current_p_2_5_um := safe_float d "p_2_5_um"
        current_p_5_0_um := safe_float d "p_5_0_um"
        current_p_10_0_um := safe_float d "p_10_0_um"
        current_pm1_0_cf_1 := safe_float d "pm1_0_cf_1"
        current_pm2_5_cf_1 := safe_float d "pm2_5_cf_1"
        current_pm10_0_cf_1 := safe_float d "pm10_0_cf_1"
        current_pm1_0_atm := safe_float d "pm1_0_atm"
        current_pm2_5_atm := safe_float d "pm2_5_atm"
        current_pm10_0_atm := safe_float d "pm10_0_atm"
        pm2_5stats := st.pm2_5stats
        m10avg := st.m10avg
        m30avg := st.m30avg
        h1ravg := st.h1ravg
        h6ravg := st.h6ravg
        d1avg := st.d1avg
        w1avg := st.w1avg
        last_modified_stats := st.last_modified_stats
        last2_modified := st.last2_modified
        tp_primary_channel := tsp.primary_id
        tp_primary_key := tsp.primary_key
        tp_secondary_channel := tsp.secondary_id
        tp_secondary_key := tsp.secondary_key
        thingspeak_primary :=
          if tsp.resolved then some (tsp.primary_id, tsp.primary_key) else Option.none
        thingspeak_secondary :=
          if tsp.resolved then some (tsp.secondary_id, tsp.secondary_key) else Option.none
        last_seen := ls
        model := dget d "Type"
        adc := dget d "Adc"
        rssi := dget d "RSSI"
        hidden := !(pyEq (dget d "Hidden") (.str "false"))
        flagged := pyEq (dget d "Flag") (.int 1)
        downgraded := pyEq (dget d "A_H") (.str "true")
        age := dget d "AGE"
        brightness := dget d "DEVICE_BRIGHTNESS"
        hardware := dget d "DEVICE_HARDWAREDISCOVERED"
        version := dget d "Version"
        last_update_check := dget d "LastUpdateCheck"
        created := dget d "Created"
        uptime := dget d "Uptime"
        is_owner := pyTruthy (dget d "isOwner")
      }

/-- The `meta` category of `Channel.as_dict` (channel.py lines 342-349). -/
def metaList (r : ChannelRec) : List (String × PyVal) :=
  [("id", r.identifier),
   ("parent", r.parent),
   ("lat", r.lat),
   ("lon", r.lon),
   ("name", r.name),
   ("location_type", r.location_type)]

/-- The `data` category of `Channel.as_dict` (channel.py lines 350-368). -/
def dataList (r : ChannelRec) : List (String × PyVal) :=
  [("pm_2.5", r.current_pm2_5),
   ("temp_f", r.current_temp_f),
   ("temp_c", r.current_temp_c),
   ("humidity", r.current_humidity),
   ("pressure", r.current_pressure),
   ("p_0_3_um", r.current_p_0_3_um),
   ("p_0_5_um", r.current_p_0_5_um),
   ("p_1_0_um", r.current_p_1_0_um),
   ("p_2_5_um", r.current_p_2_5_um),
   ("p_5_0_um", r.current_p_5_0_um),
   ("p_10_0_um", r.current_p_10_0_um),
   ("pm1_0_cf_1", r.current_pm1_0_cf_1),
   ("pm2_5_cf_1", r.current_pm2_5_cf_1),
   ("pm10_0_cf_1", r.current_pm10_0_cf_1),
   ("pm1_0_atm", r.current_pm1_0_atm),
   ("pm2_5_atm", r.current_pm2_5_atm),
   ("pm10_0_atm", r.current_pm10_0_atm)]

/-- The `diagnostic` category of `Channel.as_dict` (channel.py lines
369-385). -/
def diagList (r : ChannelRec) : List (String × PyVal) :=
  [("last_seen", r.last_seen),
   ("model", r.model),
   ("adc", r.adc),
   ("rssi", r.rssi),
   ("hidden", .bool r.hidden),
   ("flagged", .bool r.flagged),
   ("downgraded", .bool r.downgraded),
   ("age", r.age),
   ("brightness", r.brightness),
   ("hardware", r.hardware),
   ("version", r.version),
   ("last_update_check", r.last_update_check),
   ("created", r.created),
   ("uptime", r.uptime),
   ("is_owner", .bool r.is_owner)]

/-- The `statistics` category of `Channel.as_dict` (channel.py lines
386-393). -/
def statsList (r : ChannelRec) : List (String × PyVal) :=
  [("10min_avg", r.m10avg),
   ("30min_avg", r.m30avg),
   ("1hour_avg", r.h1ravg),
   ("6hour_avg", r.h6ravg),
   ("1day_avg", r.d1avg),
   ("1week_avg", r.w1avg)]

/-- Models `Channel.as_dict` (channel.py lines 337-396): the nested
four-category representation. -/
def as_dict (r : ChannelRec) : List (String × List (String × PyVal)) :=
  [("meta", metaList r),
   ("data", dataList r),
   ("diagnostic", diagList r),
   ("statistics", statsList r)]

/-- Models `Channel.as_flat_dict` (channel.py lines 398-408): a fresh dict
filled with `out_d[prop] = nested[category][prop]` over the categories and
properties in order. -/
def as_flat_dict (r : ChannelRec) : List (String × PyVal) :=
  (as_dict r).foldl
    (fun acc cat => cat.2.foldl (fun a kv => dictInsert a kv.1 kv.2) acc) []

/-- A `datetime` as far as `get_thingspeak_url` can observe one: the format
string `"%Y-%m-%d 00:00:00"` prints only the date part (the literal
`00:00:00` replaces the actual time of day). -/
structure PyDate where
  year : Nat
  month : Nat
  day : Nat
  deriving Inhabited, DecidableEq

/-- Two-digit zero padding, as `%m` / `%d` format. -/
def pad2 (n : Nat) : String :=
  if n < 10 then "0" ++ toString n else toString n

/-- Four-digit zero padding, as `%Y` format. -/
def pad4 (n : Nat) : String :=
  if n < 10 then "000" ++ toString n
  else if n < 100 then "00" ++ toString n
  else if n < 1000 then "0" ++ toString n
  else toString n

/-- Models `dt.strftime("%Y-%m-%d 00:00:00")` (channel.py lines 222 and 224). -/
def strftimeDayMidnight (d : PyDate) : String :=
  pad4 d.year ++ "-" ++ pad2 d.month ++ "-" ++ pad2 d.day ++ " 00:00:00"

/-- Models `str(v)` for the values that `urlencode` stringifies.  The `repr`
of Python floats, lists, dicts and datetimes is not modelled faithfully;
no such value reaches the URL encoder in the verified claims. -/
def pyStr : PyVal → String
  | .str s => s
  | .int n => toString n
  | .bool b => if b then "True" else "False"
  | .none => "None"
  | .float q => toString q.num ++ "/" ++ toString q.den
  | .list _ => "<list>"
  | .dict _ => "<dict>"
  | .dt _ => "<datetime>"

/-- UTF-8 bytes of a character, as byte values. -/
def utf8Bytes (c : Char) : List Nat :=
  let n := c.toNat
  if n < 128 then [n]
  else if n < 2048 then [192 + n / 64, 128 + n % 64]
  else if n < 65536 then [224 + n / 4096, 128 + (n / 64) % 64, 128 + n % 64]
  else [240 + n / 262144, 128 + (n / 4096) % 64, 128 + (n / 64) % 64, 128 + n % 64]

/-- Uppercase hexadecimal digit for a value below 16. -/
def hexDigitChar (n : Nat) : Char :=
  if n < 10 then Char.ofNat (48 + n) else Char.ofNat (55 + n)

/-- Percent-encoding of one byte under `urllib.parse.quote_plus`: ASCII
letters, digits, `_`, `.`, `-`, `~` pass through, space becomes `+`, every
other byte becomes `%XX`. -/
def quotePlusByte (b : Nat) : String :=
  if (48 ≤ b && b ≤ 57) || (65 ≤ b && b ≤ 90) || (97 ≤ b && b ≤ 122)
      || b = 95 || b = 46 || b = 45 || b = 126 then
    String.singleton (Char.ofNat b)
  else if b = 32 then "+"
  else "%" ++ String.singleton (hexDigitChar (b / 16)) ++ String.singleton (hexDigitChar (b % 16))

/-- Models `urllib.parse.quote_plus` on a string. -/
def quote_plus (s : String) : String :=
  String.join (s.data.map (fun c => String.join ((utf8Bytes c).map quotePlusByte)))

/-- Models `urllib.parse.urlencode(args)` (channel.py line 228): each pair
becomes `quote_plus(key)=quote_plus(str(value))`, joined with `&`, in dict
order. -/
def urlencode (args : List (String × PyVal)) : String :=
  String.intercalate "&" (args.map (fun kv => quote_plus kv.1 ++ "=" ++ quote_plus (pyStr kv.2)))

/-- Modelled from the spec: `THINGSPEAK_API_URL` lives in
`purpleair/api_data.py`, which is not among the provided source files.  Per
spec section 6 the remote time-series API is addressed by a per-channel
identifier and a response-format selector; the template is filled with
`.format(channel=..., dataformat=...)` (channel.py lines 226-227), which
stringifies its arguments and never raises. -/
def THINGSPEAK_API_URL (channel : PyVal) (dataformat : String) : String :=
  "https://api.thingspeak.com/channels/" ++ pyStr channel ++ "/feeds." ++ dataformat ++ "?"

/-- Models channel.py lines 205-224: copy the caller's options (or start from
an empty dict when the argument is falsy), fill each of the four default
arguments only when its key is absent, then set `start` — and `end` only when
an end date was passed (`if end:`). -/
def merge_thingspeak_args (key : PyVal) (args? : Option (List (String × PyVal)))
    (start : PyDate) (endo : Option PyDate) : List (String × PyVal) :=
  let ta :=
    match args? with
    | some l => if l.isEmpty then [] else l
    | Option.none => []
  let defaults : List (String × PyVal) :=
    [("api_key", key), ("offset", .int 0), ("average", .str ""), ("round", .int 2)]
  let ta := defaults.foldl (fun acc kv => dictSetDefault acc kv.1 kv.2) ta
  let ta := dictInsert ta "start" (.str (strftimeDayMidnight start))
  match endo with
  | some e => dictInsert ta "end" (.str (strftimeDayMidnight e))
  | Option.none => ta

/-- Models `Channel.get_thingspeak_url` (channel.py lines 179-228).  The feed
selector is validated first (`ValueError` naming the invalid value); then the
identifier/key pair of the selected feed is read from the record — with no
check that it was ever resolved — the option defaults are merged, and the URL
is returned.  The function performs no I/O. -/
def get_thingspeak_url (r : ChannelRec) (thingspeak_field : String) (start : PyDate)
    (endo : Option PyDate) (thingspeak_args : Option (List (String × PyVal)))
    (dataformat : String) : Except PyErr String :=
  if thingspeak_field = "primary" ∨ thingspeak_field = "secondary" then
    let channel :=
      if thingspeak_field = "primary" then r.tp_primary_channel else r.tp_secondary_channel
    let key :=
      if thingspeak_field = "primary" then r.tp_primary_key else r.tp_secondary_key
    .ok (THINGSPEAK_API_URL channel dataformat
      ++ urlencode (merge_thingspeak_args key thingspeak_args start endo))
  else
    .error (.valueError ("Invalid ThingSpeak key: " ++ thingspeak_field
      ++ ". Must be in \x7b\"primary\", \"secondary\"\x7d"))

/-- First-occurrence lookup on a column-name mapping. -/
def slookup (m : List (String × String)) (k : String) : Option String :=
  match m with
  | [] => Option.none
  | (k2, v) :: t => if k2 = k then some v else slookup t k

/-- Modelled from the spec: `PARENT_PRIMARY_COLS` lives in
`purpleair/api_data.py`, which is not among the provided source files.  Spec
section 4.4 specifies four column-remap tables keyed by feed and role, where
the root and child tables for a feed rename the same raw column names to
potentially different canonical names; the spec does not list the individual
columns, so representative entries are used. -/
def PARENT_PRIMARY_COLS : List (String × String) :=
  [("field1", "PM1.0 (CF=1) ug/m3"), ("field2", "PM2.5 (CF=1) ug/m3"),
   ("field3", "PM10.0 (CF=1) ug/m3"), ("field4", "UptimeMinutes"),
   ("field5", "ADC"), ("field6", "Temperature_F"),
   ("field7", "Humidity_%"), ("field8", "PM2.5 (CF=ATM) ug/m3")]

/-- Modelled from the spec: the child-role primary-feed table of
`purpleair/api_data.py` (see `PARENT_PRIMARY_COLS`); it renames some of the
same raw columns to different canonical names than the root table. -/
def CHILD_PRIMARY_COLS : List (String × String) :=
  [("field1", "PM1.0 (CF=1) ug/m3"), ("field2", "PM2.5 (CF=1) ug/m3"),
   ("field3", "PM10.0 (CF=1) ug/m3"), ("field4", "Free_Mem"),
   ("field5", "ADC"), ("field6", "Pressure_hpa"),
   ("field7", "RSSI_dbm"), ("field8", "PM2.5 (CF=ATM) ug/m3")]

/-- Modelled from the spec: the root-role secondary-feed table of
`purpleair/api_data.py` (see `PARENT_PRIMARY_COLS`). -/
def PARENT_SECONDARY_COLS : List (String × String) :=
  [("field1", "0.3um/dl"), ("field2", "0.5um/dl"), ("field3", "1.0um/dl"),
   ("field4", "2.5um/dl"), ("field5", "5.0um/dl"), ("field6", "10.0um/dl"),
   ("field7", "PM1.0 (CF=ATM) ug/m3"), ("field8", "PM10 (CF=ATM) ug/m3")]

/-- Modelled from the spec: the child-role secondary-feed table of
`purpleair/api_data.py` (see `PARENT_PRIMARY_COLS`). -/
def CHILD_SECONDARY_COLS : List (String × String) :=
  [("field1", "0.3um/dl"), ("field2", "0.5um/dl"), ("field3", "1.0um/dl"),
   ("field4", "2.5um/dl"), ("field5", "5.0um/dl"), ("field6", "10.0um/dl"),
   ("field7", "PM1.0 (CF=ATM) ug/m3"), ("field8", "PM10.0 (CF=ATM) ug/m3")]

/-- Models the column-table selection of `Channel.clean_data` (channel.py
lines 238-245): the feed picks the parent/child table pair, and the record's
stored `type` alone picks between them. -/
def clean_data_columns (r : ChannelRec) (thingspeak_field : String) :
    List (String × String) :=
  let parent_cols :=
    if thingspeak_field = "primary" then PARENT_PRIMARY_COLS else PARENT_SECONDARY_COLS
  let child_cols :=
    if thingspeak_field = "primary" then CHILD_PRIMARY_COLS else CHILD_SECONDARY_COLS
  if r.type = "parent" then parent_cols else child_cols

/-- Models `DataFrame.rename(columns=mapping)` (channel.py line 247) at the
level of the table's column names: a column named in the mapping is renamed,
any other column is kept. -/
def renameColumns (mapping : List (String × String)) (cols : List String) : List String :=
  cols.map (fun c => (slookup mapping c).getD c)

/-- One week of the integer day count used to model `datetime` arithmetic in
`get_historical` (`timedelta(weeks=1)` is exactly 7 days, and week
subtraction never touches the time of day). -/
def oneWeek : Int := 7

/-- Models one iteration of the loop of `Channel.get_historical` (channel.py
lines 323-330): `start_date = to_week`, `to_week = to_week - timedelta(weeks=1)`,
then a fetch of the window `(to_week, start_date)` — in that order — repeated
for the remaining iteration count. -/
def get_historical_loop : Nat → Int → List (Int × Int)
  | 0, _ => []
  | n + 1, to_week =>
    let start_date := to_week
    let to_week2 := to_week - oneWeek
    (to_week2, start_date) :: get_historical_loop n to_week2

/-- Models `Channel.get_historical` (channel.py lines 312-335) at the level
of the `(start, end)` windows of the single-range fetches it issues, in issue
order, with dates as integer day counts.  Before the loop the cursor is set
to `start_date - timedelta(weeks=1)` (line 321).  The `while`/`for` pair
executes the body exactly `weeks_to_get` times: `range(weeks_to_get)` is
fixed on entry and the counter reaches zero exactly when the inner loop
finishes, so the outer `while` then exits. -/
def get_historical_windows (weeks_to_get : Nat) (start_date : Int) : List (Int × Int) :=
  get_historical_loop weeks_to_get (start_date - oneWeek)

/-- Models `pandas.merge(left, right, how='inner', on='created_at')` on
tables represented as rows pairing a `created_at` key with the row's other
columns: one output row per pair of left/right rows with equal key, in
left-table order.  This is the merge performed by `get_all_historical`
(channel.py line 272) and `get_all_historical_between` (line 290). -/
def pdMergeInner {α β γ : Type} [DecidableEq α]
    (left : List (α × β)) (right : List (α × γ)) : List (α × β × γ) :=
  left.flatMap (fun x =>
    (right.filter (fun y => decide (y.1 = x.1))).map (fun y => (x.1, x.2, y.2)))

/-- A heap of Python dict objects, used to state frame properties about
callers' mutable dicts: each cell holds one dict's contents. -/
abbrev PyStore := List (List (String × PyVal))

/-- Contents of the dict object at a reference (empty for a dangling one). -/
def storeGet (s : PyStore) (ref : Nat) : List (String × PyVal) :=
  (List.get? s ref).getD []

/-- Models `Channel.get_thingspeak_url` with the caller's options dict as an
object in a store: line 207 copies the caller's dict (`thingspeak_args.copy()`)
— or line 209 allocates a fresh `{}` — so every write of the builder lands in
a new cell and the caller's cell is only read.  An invalid feed selector
raises before lines 205-209, allocating nothing. -/
def get_thingspeak_url_st (s : PyStore) (r : ChannelRec) (thingspeak_field : String)
    (start : PyDate) (endo : Option PyDate) (argref : Option Nat) (dataformat : String) :
    PyStore × Except PyErr String :=
  if thingspeak_field = "primary" ∨ thingspeak_field = "secondary" then
    let args? := argref.map (storeGet s)
    let key :=
      if thingspeak_field = "primary" then r.tp_primary_key else r.tp_secondary_key
    (s ++ [merge_thingspeak_args key args? start endo],
     get_thingspeak_url r thingspeak_field start endo args? dataformat)
  else
    (s, get_thingspeak_url r thingspeak_field start endo (argref.map (storeGet s)) dataformat)

/-- Models `v[k]` subscripting: dicts index by key (`KeyError` when absent);
any other value raises `TypeError` for a string subscript. -/
def pySubscript (v : PyVal) (k : String) : Except PyErr PyVal :=
  match v with
  | .dict kvs => ditem kvs k
  | _ => .error .typeError

/-- The metadata attributes of `Sensor.setup` (sensor.py lines 37-42), all
read with raising `[]` access. -/
structure SensorMeta where
  lat : PyVal
  lon : PyVal
  parent : PyVal
  name : PyVal
  location_type : PyVal
  deriving Inhabited

/-- Models sensor.py lines 37-42 (`parse_location` is left at its default
`False`; reverse geocoding is an external collaborator). -/
def sensor_meta_part (d : RawAttrs) : Except PyErr SensorMeta :=
  match ditem d "Lat" with
  | .error e => .error e
  | .ok la =>
  match ditem d "Lon" with
  | .error e => .error e
  | .ok lo =>
  match ditem d "ParentID" with
  | .error e => .error e
  | .ok pa =>
  match ditem d "Label" with
  | .error e => .error e
  | .ok nm =>
  match ditem d "DEVICE_LOCATIONTYPE" with
  | .error e => .error e
  | .ok lt => .ok ⟨la, lo, pa, nm, lt⟩

/-- The live-reading attributes of `Sensor.setup` (sensor.py lines 47-71). -/
structure SensorData where
  current_pm2_5 : PyVal
  current_temp_f : PyVal
  current_temp_c : PyVal
  current_humidity : PyVal
  current_pressure : PyVal
  deriving Inhabited

/-- Models sensor.py lines 47-71.  The `try` blocks catch only `TypeError`
and `ValueError`: a missing key still raises `KeyError` through them, and the
`pressure` block's subscript can only raise `KeyError`, so its `try` never
catches anything. -/
def sensor_data_part (d : RawAttrs) : Except PyErr SensorData :=
  match ditem d "PM2_5Value" with
  | .error e => .error e
  | .ok pm =>
  match ditem d "temp_f" with
  | .error e => .error e
  | .ok tv =>
    let tc : PyVal × PyVal :=
      match pyFloatConv tv with
      | .ok q => (.float q, .float ((q - 32) * (5 / 9)))
      | .error _ => (PyVal.none, PyVal.none)
    match ditem d "humidity" with
    | .error e => .error e
    | .ok hv =>
      let ch :=
        match pyInt hv with
        | .ok n => PyVal.float ((n : ℚ) / 100)
        | .error _ => PyVal.none
      match ditem d "pressure" with
      | .error e => .error e
      | .ok pv => .ok ⟨pm, tc.1, tc.2, ch, pv⟩

/-- The statistics attributes of `Sensor.setup` (sensor.py lines 73-95);
when the raw `Stats` value is falsy these attributes are never assigned,
modelled as the `Option` being `none` in `SensorRec`. -/
structure SensorStats where
  pm2_5stats : PyVal
  m10avg : PyVal
  m30avg : PyVal
  h1ravg : PyVal
  h6ravg : PyVal
  d1avg : PyVal
  w1avg : PyVal
  last_modified_stats : PyVal
  last2_modified : PyVal
  deriving Inhabited

/-- Models sensor.py lines 73-95: a raising `Stats` read, truthiness test,
`json.loads`, six raising subscripts, then `lastModified` under a `try`
catching `TypeError`/`ValueError`/`KeyError` (but not the overflow of
`utcfromtimestamp`), and `timeSinceModified` under a `try` catching only
`KeyError`. -/
def sensor_stats_part (d : RawAttrs) : Except PyErr (Option SensorStats) :=
  match ditem d "Stats" with
  | .error e => .error e
  | .ok sv =>
    if pyTruthy sv then
      match json_loads sv with
      | .error e => .error e
      | .ok ps =>
        match pySubscript ps "v1" with
        | .error e => .error e
        | .ok v1 =>
        match pySubscript ps "v2" with
        | .error e => .error e
        | .ok v2 =>
        match pySubscript ps "v3" with
        | .error e => .error e
        | .ok v3 =>
        match pySubscript ps "v4" with
        | .error e => .error e
        | .ok v4 =>
        match pySubscript ps "v5" with
        | .error e => .error e
        | .ok v5 =>
        match pySubscript ps "v6" with
        | .error e => .error e
        | .ok v6 =>
          match (match pySubscript ps "lastModified" with
                 | .error _ => Except.ok PyVal.none
                 | .ok v =>
                   match pyInt v with
                   | .error _ => Except.ok PyVal.none
                   | .ok i => utcfromtimestamp ((i : ℚ) / 1000)) with
          | .error e => .error e
          | .ok lm =>
            match (match pySubscript ps "timeSinceModified" with
                   | .ok v => Except.ok v
                   | .error (.keyError _) => Except.ok PyVal.none
                   | .error e => Except.error e) with
            | .error e => .error e
            | .ok l2 => .ok (some ⟨ps, v1, v2, v3, v4, v5, v6, lm, l2⟩)
    else .ok Option.none

/-- The diagnostic attributes of `Sensor.setup` (sensor.py lines 97-103). -/
structure SensorDiag where
  last_seen : PyVal
  model : PyVal
  hidden : Bool
  flagged : Bool
  downgraded : Bool
  age : Int
  deriving Inhabited

/-- Models sensor.py lines 97-103.  Note line 102: `self.downgraded = True
if self.data['A_H'] == 1 else False` — the comparison is against the
integer `1`, unlike channel.py line 145 which compares against the string
`'true'`. -/
def sensor_diag_part (d : RawAttrs) : Except PyErr SensorDiag :=
  match ditem d "LastSeen" with
  | .error e => .error e
  | .ok lsv =>
  match utcfromtimestampVal lsv with
  | .error e => .error e
  | .ok ls =>
  match ditem d "Type" with
  | .error e => .error e
  | .ok mo =>
  match ditem d "Hidden" with
  | .error e => .error e
  | .ok hv =>
  match ditem d "Flag" with
  | .error e => .error e
  | .ok fv =>
  match ditem d "A_H" with
  | .error e => .error e
  | .ok av =>
  match ditem d "AGE" with
  | .error e => .error e
  | .ok gv =>
  match pyInt gv with
  | .error e => .error e
  | .ok g =>
    .ok ⟨ls, mo, !(pyEq hv (.str "false")), pyEq fv (.int 1), pyEq av (.int 1), g⟩

/-- The record built by `Sensor.setup`. -/
structure SensorRec where
  lat : PyVal
  lon : PyVal
  parent : PyVal
  name : PyVal
  location_type : PyVal
  current_pm2_5 : PyVal
  current_temp_f : PyVal
  current_temp_c : PyVal
  current_humidity : PyVal
  current_pressure : PyVal
  stats : Option SensorStats
  last_seen : PyVal
  model : PyVal
  hidden : Bool
  flagged : Bool
  downgraded : Bool
  age : Int
  deriving Inhabited

/-- Models `Sensor.setup` (sensor.py lines 35-103), in source order:
metadata, live readings, statistics, diagnostics. -/
def sensor_setup (d : RawAttrs) : Except PyErr SensorRec :=
  match sensor_meta_part d with
  | .error e => .error e
  | .ok me =>
  match sensor_data_part d with
  | .error e => .error e
  | .ok da =>
  match sensor_stats_part d with
  | .error e => .error e
  | .ok st =>
  match sensor_diag_part d with
  | .error e => .error e
  | .ok di =>
    .ok {
      lat := me.lat
      lon := me.lon
      parent := me.parent
      name := me.name
      location_type := me.location_type
      current_pm2_5 := da.current_pm2_5
      current_temp_f := da.current_temp_f
      current_temp_c := da.current_temp_c
      current_humidity := da.current_humidity
      current_pressure := da.current_pressure
      stats := st
      last_seen := di.last_seen
      model := di.model
      hidden := di.hidden
      flagged := di.flagged
      downgraded := di.downgraded
      age := di.age
    }

/-- The closed-form lookup behaviour that the amended claim about
`get_thingspeak_url`'s option merging asserts (this definition follows the
amended specification wording; the theorem relates it to the translated
source): `start` always comes from the builder; `end` comes from the builder
exactly when an end date was passed, and otherwise passes through from the
caller's options; each of the four defaulted keys keeps the caller's value
when supplied and otherwise receives its default (`api_key` from the record,
offset `0`, average `""`, rounding `2`); all other keys pass through. -/
def merge_lookup_model (key : PyVal) (args : List (String × PyVal))
    (start : PyDate) (endo : Option PyDate) (k : String) : Option PyVal :=
  if "start" = k then some (.str (strftimeDayMidnight start))
  else if "end" = k then
    (match endo with
     | some e => some (.str (strftimeDayMidnight e))
     | Option.none => dlookup args "end")
  else if "api_key" = k then optOr (dlookup args k) (some key)
  else if "offset" = k then optOr (dlookup args k) (some (.int 0))
  else if "average" = k then optOr (dlookup args k) (some (.str ""))
  else if "round" = k then optOr (dlookup args k) (some (.int 2))
  else dlookup args k

/-- A concrete raw snapshot for a `Sensor`, with every key `Sensor.setup`
reads present, `A_H` holding the string `"true"`, and a well-formed `Stats`
payload. -/
def sensorRawEx : RawAttrs :=
  [("Lat", PyVal.float 1), ("Lon", PyVal.float 2), ("ParentID", PyVal.none),
   ("Label", PyVal.str "x"), ("DEVICE_LOCATIONTYPE", PyVal.str "outside"),
   ("PM2_5Value", PyVal.str "1.0"), ("temp_f", PyVal.str "70"),
   ("humidity", PyVal.str "50"), ("pressure", PyVal.float 1000),
   ("Stats", PyVal.str "\x7b\"v1\": 1, \"v2\": 2, \"v3\": 3, \"v4\": 4, \"v5\": 5, \"v6\": 6, \"lastModified\": 1600000000000, \"timeSinceModified\": 69\x7d"),
   ("LastSeen", PyVal.int 1600000000), ("Type", PyVal.str "PMS"),
   ("Hidden", PyVal.str "false"), ("Flag", PyVal.int 0),
   ("A_H", PyVal.str "true"), ("AGE", PyVal.int 1)]

/-- A concrete raw snapshot for a `Channel` exercising the three diagnostic
flags. -/
def chanRawEx : RawAttrs :=
  [("ID", PyVal.int 1234), ("Hidden", PyVal.str "false"),
   ("Flag", PyVal.int 1), ("A_H", PyVal.str "true")]

/-- Extract the value of a successful computation (defaulting on error);
used to name the record a concrete construction evaluates to. -/
def exceptOk {ε α : Type} [Inhabited α] (x : Except ε α) : α :=
  match x with
  | .ok a => a
  | .error _ => default

/-- `ditem` succeeds exactly on present keys, with the stored value. -/
theorem ditem_ok_iff (d : RawAttrs) (k : String) (v : PyVal) :
    ditem d k = .ok v ↔ dlookup d k = some v := by
  unfold ditem
  cases h : dlookup d k <;> simp

/-- Python `==` against a string literal holds exactly for that string. -/
theorem pyEq_str_iff (v : PyVal) (s : String) :
    pyEq v (.str s) = true ↔ v = .str s := by
  cases v <;> simp [pyEq]

/-- Python `==` against an integer literal holds exactly for the values
whose numeric value is that integer. -/
theorem pyEq_int_iff (v : PyVal) (n : Int) :
    pyEq v (.int n) = true ↔ pyNum? v = some (n : ℚ) := by
  cases v <;> simp [pyEq, pyNum?]

/-- Claim C1: the spec says `get_historical(n, feed, D, options)` issues
exactly `n` weekly fetches with windows `[D-1w, D], [D-2w, D-1w], ...`,
most-recent first.  The translated loop indeed issues exactly `n` weekly
windows in backward order, but every window is one week older than
specified: at `weeks_to_get = 3`, `start_date = day 0`, the issued windows
are `[-14, -7], [-21, -14], [-28, -21]` (in days), and the window
`[-7, 0]` — the claim's first window — is never fetched.  The loop
reassigns `start_date = to_week` and advances `to_week` once more *before*
building the first URL (channel.py lines 325-328), so the most recent week
is skipped and an extra oldest week is fetched instead, contradicting the
claim and the source's own docstring. -/
theorem get_historical_windows_concrete :
    get_historical_windows 3 0 = [(-14, -7), (-21, -14), (-28, -21)] ∧
    get_historical_windows 1 0 = [(-14, -7)] ∧
    ¬ ((-7, 0) ∈ get_historical_windows 3 0) := by
  refine ⟨rfl, rfl, ?_⟩
  decide

/-- Claim C2 (counterexample): construction is claimed never to raise, and
in particular to succeed when `Stats` is present but not valid JSON; but on
the raw mapping `{'Stats': 'not json'}` the translated `Channel.setup`
raises `json.JSONDecodeError` from the unguarded `json.loads` at
channel.py lines 86-87. -/
theorem channel_setup_invalid_stats_raises :
    channel_setup [("Stats", PyVal.str "not json")] = .error PyErr.jsonDecodeError := rfl

/-- Claim C2 (amended): construction returns normally — with every missing
or malformed field degrading only its own record field — whenever the
`Stats` key is absent and `LastSeen` is absent or `None`; but when `Stats`
is present and `json.loads` fails on it, construction raises that parse
error instead of degrading the statistics block. -/
theorem channel_setup_totality_amended :
    (∀ d : RawAttrs, dlookup d "Stats" = Option.none → dget d "LastSeen" = PyVal.none →
      ∃ r, channel_setup d = .ok r) ∧
    (∀ (d : RawAttrs) (v : PyVal) (e : PyErr), dlookup d "Stats" = some v →
      json_loads v = .error e → channel_setup d = .error e) := by
  constructor
  · intro d h1 h2
    have hs : stats_part (dlookup d "Stats") =
        .ok ⟨PyVal.none, .none, .none, .none, .none, .none, .none, .none, .none⟩ := by
      rw [h1]
      rfl
    have hl : lastseen_part (dget d "LastSeen") = .ok PyVal.none := by
      rw [h2]
      rfl
    exact ⟨_, by unfold channel_setup; rw [hs, hl]⟩
  · intro d v e h1 h2
    have hj : stats_json (dlookup d "Stats") = .error e := by
      rw [h1]
      exact h2
    have hs : stats_part (dlookup d "Stats") = .error e := by
      unfold stats_part
      rw [hj]
    unfold channel_setup
    rw [hs]

/-- Witness for the amended C2 theorem: a mapping whose only field is a
malformed `Lat` still constructs, and a present non-JSON `Stats` makes
construction fail with the decode error. -/
theorem channel_setup_totality_amended_witness :
    (∃ r, channel_setup [("Lat", PyVal.str "bad")] = .ok r) ∧
    channel_setup [("Stats", PyVal.str "[")] = .error PyErr.jsonDecodeError :=
  ⟨channel_setup_totality_amended.1 _ rfl rfl,
   channel_setup_totality_amended.2 _ (PyVal.str "[") PyErr.jsonDecodeError rfl rfl⟩

/-- Inversion of a successful `channel_setup`: the record's diagnostic
flags, role and ThingSpeak identity fields equal their source formulas. -/
theorem channel_setup_fields (d : RawAttrs) (r : ChannelRec)
    (h : channel_setup d = .ok r) :
    r.hidden = !(pyEq (dget d "Hidden") (.str "false")) ∧
    r.flagged = pyEq (dget d "Flag") (.int 1) ∧
    r.downgraded = pyEq (dget d "A_H") (.str "true") ∧
    r.type = (if isNone (dget d "ParentID") then "parent" else "child") ∧
    r.tp_primary_channel = (resolve_thingspeak d).primary_id ∧
    r.tp_primary_key = (resolve_thingspeak d).primary_key ∧
    r.tp_secondary_channel = (resolve_thingspeak d).secondary_id ∧
    r.tp_secondary_key = (resolve_thingspeak d).secondary_key := by
  unfold channel_setup at h
  split at h
  · simp at h
  · split at h
    · simp at h
    · injection h with h
      subst h
      exact ⟨rfl, rfl, rfl, rfl, rfl, rfl, rfl, rfl⟩

/-- When any of the four identity keys is absent, the `try` block of
channel.py lines 109-127 resets all four identity attributes to `None`. -/
theorem resolve_thingspeak_missing (d : RawAttrs)
    (h : ¬(hasKey d "THINGSPEAK_PRIMARY_ID" = true ∧
           hasKey d "THINGSPEAK_PRIMARY_ID_READ_KEY" = true ∧
           hasKey d "THINGSPEAK_SECONDARY_ID" = true ∧
           hasKey d "THINGSPEAK_SECONDARY_ID_READ_KEY" = true)) :
    resolve_thingspeak d = ⟨PyVal.none, PyVal.none, PyVal.none, PyVal.none, false⟩ := by
  unfold resolve_thingspeak
  unfold hasKey at h
  cases h1 : dlookup d "THINGSPEAK_PRIMARY_ID" <;>
    cases h2 : dlookup d "THINGSPEAK_PRIMARY_ID_READ_KEY" <;>
      cases h3 : dlookup d "THINGSPEAK_SECONDARY_ID" <;>
        cases h4 : dlookup d "THINGSPEAK_SECONDARY_ID_READ_KEY" <;>
          simp_all

/-- Claim C3 (counterexample): on a channel built from an empty raw snapshot
(so all four feed-identity keys are absent), `get_thingspeak_url` for the
primary feed raises nothing at all — it returns a URL that embeds the
unresolved identifier and key as the literal text `None`.  The claimed
configuration error does not exist in the code. -/
theorem get_thingspeak_url_missing_ids_counterexample :
    (channel_setup []).map
      (fun r => get_thingspeak_url r "primary" ⟨2020, 1, 2⟩ Option.none Option.none "csv") =
    .ok (.ok "https://api.thingspeak.com/channels/None/feeds.csv?api_key=None&offset=0&average=&round=2&start=2020-01-02+00%3A00%3A00") := rfl

/-- Claim C3 (amended): for every channel whose raw snapshot lacked any of
the four feed-identity keys, `get_thingspeak_url` performs no network I/O
and raises no error at all: for either feed it returns normally a URL built
from `None` in place of the identifier and of the key (failure is deferred
to the transport layer that later dereferences the bogus URL). -/
theorem get_thingspeak_url_missing_ids_amended (d : RawAttrs) (r : ChannelRec)
    (hok : channel_setup d = .ok r)
    (hmiss : ¬(hasKey d "THINGSPEAK_PRIMARY_ID" = true ∧
               hasKey d "THINGSPEAK_PRIMARY_ID_READ_KEY" = true ∧
               hasKey d "THINGSPEAK_SECONDARY_ID" = true ∧
               hasKey d "THINGSPEAK_SECONDARY_ID_READ_KEY" = true))
    (start : PyDate) (args : Option (List (String × PyVal))) (fmt : String) :
    get_thingspeak_url r "primary" start Option.none args fmt =
      .ok (THINGSPEAK_API_URL PyVal.none fmt
        ++ urlencode (merge_thingspeak_args PyVal.none args start Option.none)) ∧
    get_thingspeak_url r "secondary" start Option.none args fmt =
      .ok (THINGSPEAK_API_URL PyVal.none fmt
        ++ urlencode (merge_thingspeak_args PyVal.none args start Option.none)) := by
  obtain ⟨-, -, -, -, hp, hpk, hsc, hsk⟩ := channel_setup_fields d r hok
  rw [resolve_thingspeak_missing d hmiss] at hp hpk hsc hsk
  constructor <;> simp [get_thingspeak_url, hp, hpk, hsc, hsk]

/-- Witness for the amended C3 theorem at the empty raw snapshot. -/
theorem get_thingspeak_url_missing_ids_amended_witness :
    get_thingspeak_url (exceptOk (channel_setup [])) "primary" ⟨2020, 1, 2⟩
        Option.none Option.none "csv" =
      .ok (THINGSPEAK_API_URL PyVal.none "csv"
        ++ urlencode (merge_thingspeak_args PyVal.none Option.none ⟨2020, 1, 2⟩ Option.none)) ∧
    get_thingspeak_url (exceptOk (channel_setup [])) "secondary" ⟨2020, 1, 2⟩
        Option.none Option.none "csv" =
      .ok (THINGSPEAK_API_URL PyVal.none "csv"
        ++ urlencode (merge_thingspeak_args PyVal.none Option.none ⟨2020, 1, 2⟩ Option.none)) :=
  get_thingspeak_url_missing_ids_amended [] _ rfl (by decide) ⟨2020, 1, 2⟩ Option.none "csv"

/-- Claim C5: for every feed selector outside `{primary, secondary}`,
`get_thingspeak_url` raises — synchronously, before reading any feed
identifier from the record (the conclusion does not depend on the record),
before building any URL and without any transport effect (the translated
builder is pure) — a `ValueError` whose message names the invalid value.
This is `ValueError`, a class distinct from the error classes of transport
failures, and (per claim C3, corrected) the code has no configuration-error
path at all. -/
theorem get_thingspeak_url_invalid_feed (r : ChannelRec) (f : String) (start : PyDate)
    (endo : Option PyDate) (args : Option (List (String × PyVal))) (fmt : String)
    (h1 : f ≠ "primary") (h2 : f ≠ "secondary") :
    get_thingspeak_url r f start endo args fmt =
      .error (.valueError ("Invalid ThingSpeak key: " ++ f
        ++ ". Must be in \x7b\"primary\", \"secondary\"\x7d")) := by
  simp [get_thingspeak_url, h1, h2]

/-- Witness for C5 at the feed selector `"tertiary"`. -/
theorem get_thingspeak_url_invalid_feed_witness :
    ("tertiary" : String) ≠ "primary" ∧ ("tertiary" : String) ≠ "secondary" ∧
    get_thingspeak_url (exceptOk (channel_setup [])) "tertiary" ⟨2020, 1, 2⟩
        Option.none Option.none "csv" =
      .error (.valueError ("Invalid ThingSpeak key: " ++ "tertiary"
        ++ ". Must be in \x7b\"primary\", \"secondary\"\x7d")) :=
  ⟨by decide, by decide,
   get_thingspeak_url_invalid_feed _ "tertiary" ⟨2020, 1, 2⟩ Option.none Option.none "csv"
     (by decide) (by decide)⟩

/-- Inversion of a successful `sensor_diag_part`: the diagnostic flags
follow the literal comparisons of sensor.py lines 100-102 (note the
integer comparison for `downgraded`). -/
theorem sensor_diag_part_flags (d : RawAttrs) (t : SensorDiag)
    (h : sensor_diag_part d = .ok t) :
    (t.hidden = false ↔ dget d "Hidden" = PyVal.str "false") ∧
    (t.flagged = true ↔ pyNum? (dget d "Flag") = some 1) ∧
    (t.downgraded = true ↔ pyNum? (dget d "A_H") = some 1) := by
  unfold sensor_diag_part at h
  cases hq1 : ditem d "LastSeen" with
  | error e => simp [hq1] at h
  | ok lsv =>
  simp only [hq1] at h
  cases hq2 : utcfromtimestampVal lsv with
  | error e => simp [hq2] at h
  | ok ls =>
  simp only [hq2] at h
  cases hq3 : ditem d "Type" with
  | error e => simp [hq3] at h
  | ok mo =>
  simp only [hq3] at h
  cases hq4 : ditem d "Hidden" with
  | error e => simp [hq4] at h
  | ok hv =>
  simp only [hq4] at h
  cases hq5 : ditem d "Flag" with
  | error e => simp [hq5] at h
  | ok fv =>
  simp only [hq5] at h
  cases hq6 : ditem d "A_H" with
  | error e => simp [hq6] at h
  | ok av =>
  simp only [hq6] at h
  cases hq7 : ditem d "AGE" with
  | error e => simp [hq7] at h
  | ok gv =>
  simp only [hq7] at h
  cases hq8 : pyInt gv with
  | error e => simp [hq8] at h
  | ok g =>
  simp only [hq8] at h
  injection h with h
  subst h
  have e4 : dget d "Hidden" = hv := by
    simp [dget, (ditem_ok_iff _ _ _).mp hq4]
  have e5 : dget d "Flag" = fv := by
    simp [dget, (ditem_ok_iff _ _ _).mp hq5]
  have e6 : dget d "A_H" = av := by
    simp [dget, (ditem_ok_iff _ _ _).mp hq6]
  rw [e4, e5, e6]
  refine ⟨?_, ?_, ?_⟩
  · simp [pyEq_str_iff]
  · simpa using pyEq_int_iff fv 1
  · simpa using pyEq_int_iff av 1

/-- Inversion of a successful `sensor_setup` down to its diagnostic flags. -/
theorem sensor_setup_flags (d : RawAttrs) (r : SensorRec)
    (h : sensor_setup d = .ok r) :
    (r.hidden = false ↔ dget d "Hidden" = PyVal.str "false") ∧
    (r.flagged = true ↔ pyNum? (dget d "Flag") = some 1) ∧
    (r.downgraded = true ↔ pyNum? (dget d "A_H") = some 1) := by
  unfold sensor_setup at h
  cases hm : sensor_meta_part d with
  | error e => simp [hm] at h
  | ok me =>
  simp only [hm] at h
  cases hd : sensor_data_part d with
  | error e => simp [hd] at h
  | ok da =>
  simp only [hd] at h
  cases hst : sensor_stats_part d with
  | error e => simp [hst] at h
  | ok st =>
  simp only [hst] at h
  cases hdi : sensor_diag_part d with
  | error e => simp [hdi] at h
  | ok di =>
  simp only [hdi] at h
  injection h with h
  subst h
  simpa using sensor_diag_part_flags d di hdi

/-- Claim C4 (counterexample): on the raw snapshot `sensorRawEx`, whose
`A_H` value is exactly the string `"true"`, the record built by
`Sensor.setup` — one of the two constructors the claim cites — has
`downgraded = false`: sensor.py line 102 compares `A_H` against the integer
`1`, not against the string `"true"`, so the claim's `downgraded` clause
fails for Sensor records. -/
theorem sensor_downgraded_string_true_counterexample :
    dget sensorRawEx "A_H" = PyVal.str "true" ∧
    (sensor_setup sensorRawEx).map (fun r => r.downgraded) = .ok false :=
  ⟨rfl, rfl⟩

/-- Claim C4 (amended): for Channel records (channel.py lines 139-146) the
claim holds as stated: `hidden` is false iff the raw `Hidden` value is
exactly the string `"false"`; `flagged` is true iff the raw `Flag` value
equals the integer `1` under Python numeric equality (so `True` and `1.0`
also qualify); `downgraded` is true iff the raw `A_H` value is exactly the
string `"true"`.  For Sensor records (sensor.py lines 100-102) the `hidden`
and `flagged` clauses hold identically, but `downgraded` is instead true iff
the raw `A_H` value equals the *integer* `1`. -/
theorem diagnostic_flags_semantics :
    (∀ (d : RawAttrs) (r : ChannelRec), channel_setup d = .ok r →
      ((r.hidden = false ↔ dget d "Hidden" = PyVal.str "false") ∧
       (r.flagged = true ↔ pyNum? (dget d "Flag") = some 1) ∧
       (r.downgraded = true ↔ dget d "A_H" = PyVal.str "true"))) ∧
    (∀ (d : RawAttrs) (r : SensorRec), sensor_setup d = .ok r →
      ((r.hidden = false ↔ dget d "Hidden" = PyVal.str "false") ∧
       (r.flagged = true ↔ pyNum? (dget d "Flag") = some 1) ∧
       (r.downgraded = true ↔ pyNum? (dget d "A_H") = some 1))) := by
  constructor
  · intro d r h
    obtain ⟨hh, hf, hd, -, -, -, -, -⟩ := channel_setup_fields d r h
    rw [hh, hf, hd]
    refine ⟨?_, ?_, ?_⟩
    · simp [pyEq_str_iff]
    · simpa using pyEq_int_iff (dget d "Flag") 1
    · exact pyEq_str_iff _ _
  · exact fun d r h => sensor_setup_flags d r h

/-- Witness for the amended C4 theorem: on concrete snapshots, the Channel
record's `downgraded` tracks `A_H = "true"` while the Sensor record's
`downgraded` tracks `A_H == 1`. -/
theorem diagnostic_flags_semantics_witness :
    ((exceptOk (channel_setup chanRawEx)).downgraded = true ↔
      dget chanRawEx "A_H" = PyVal.str "true") ∧
    ((exceptOk (sensor_setup sensorRawEx)).downgraded = true ↔
      pyNum? (dget sensorRawEx "A_H") = some 1) :=
  ⟨(diagnostic_flags_semantics.1 chanRawEx _ rfl).2.2,
   (diagnostic_flags_semantics.2 sensorRawEx _ rfl).2.2⟩

/-- Lookup after a dict assignment: the assigned key reads the new value,
every other key is untouched. -/
theorem dlookup_dictInsert (l : List (String × PyVal)) (k2 : String) (v : PyVal)
    (k : String) :
    dlookup (dictInsert l k2 v) k = if k2 = k then some v else dlookup l k := by
  induction l with
  | nil => simp [dictInsert, dlookup]
  | cons hd t ih =>
    obtain ⟨k3, v3⟩ := hd
    unfold dictInsert
    by_cases h : k3 = k2
    · subst h
      simp only [if_pos rfl, dlookup]
      by_cases h2 : k3 = k <;> simp [h2]
    · simp only [if_neg h, dlookup, ih]
      by_cases h2 : k3 = k <;> by_cases h3 : k2 = k <;> simp_all

/-- Lookup after filling a default: the defaulted key reads the caller's
value when present and the default otherwise; other keys are untouched. -/
theorem dlookup_dictSetDefault (l : List (String × PyVal)) (k2 : String) (v : PyVal)
    (k : String) :
    dlookup (dictSetDefault l k2 v) k =
      if k2 = k then optOr (dlookup l k) (some v) else dlookup l k := by
  unfold dictSetDefault
  have happ : ∀ m : List (String × PyVal), dlookup (m ++ [(k2, v)]) k =
      optOr (dlookup m k) (if k2 = k then some v else Option.none) := by
    intro m
    induction m with
    | nil => simp [dlookup, optOr]
    | cons hd t ih =>
      obtain ⟨k3, v3⟩ := hd
      by_cases h : k3 = k <;> simp [dlookup, h, ih, optOr]
  by_cases hk : hasKey l k2 = true
  · rw [if_pos hk]
    by_cases h : k2 = k
    · subst h
      unfold hasKey at hk
      cases hq : dlookup l k2 with
      | none => rw [hq] at hk; simp at hk
      | some w => simp [optOr, hq]
    · simp [h]
  · rw [if_neg hk]
    rw [happ]
    by_cases h : k2 = k
    · subst h
      unfold hasKey at hk
      cases hq : dlookup l k2 with
      | none => simp [optOr, hq]
      | some w => rw [hq] at hk; simp at hk
    · cases hq : dlookup l k <;> simp [optOr, h]

/-- Claim C6 (counterexample): with no caller-supplied `average` the merged
options carry the empty string, not the string `"none"` the claim names; and
when the builder is given no end date, a caller-supplied `end` option key
passes through to the query untouched (channel.py line 223 sets `end` only
under `if end:`), so `end` *can* be supplied via the options mapping. -/
theorem merge_args_defaults_counterexample :
    dget (merge_thingspeak_args (PyVal.str "K")
        (some [("end", PyVal.str "2000-01-01 00:00:00")]) ⟨2020, 1, 2⟩ Option.none)
      "average" = PyVal.str "" ∧
    PyVal.str "" ≠ PyVal.str "none" ∧
    dget (merge_thingspeak_args (PyVal.str "K")
        (some [("end", PyVal.str "2000-01-01 00:00:00")]) ⟨2020, 1, 2⟩ Option.none)
      "end" = PyVal.str "2000-01-01 00:00:00" := by
  refine ⟨rfl, ?_, rfl⟩
  simp

/-- Claim C6 (amended): the merged options of `get_thingspeak_url` are
characterised, key by key, by `merge_lookup_model`: the defaults
`offset = 0`, `average = ""` (no averaging), `round = 2` and the feed's
`api_key` are applied only for keys the caller did not supply, and
caller-supplied keys take precedence; `start` is always set by the builder
from its date argument (a caller-supplied `start` option is overwritten);
`end` is set by the builder only when an end date argument was given — when
it is absent, a caller-supplied `end` option key passes through. -/
theorem merge_args_lookup (key : PyVal) (args : List (String × PyVal))
    (start : PyDate) (endo : Option PyDate) (k : String) :
    dlookup (merge_thingspeak_args key (some args) start endo) k =
      merge_lookup_model key args start endo k := by
  unfold merge_thingspeak_args merge_lookup_model
  have hta : dlookup (if args.isEmpty then [] else args) k = dlookup args k := by
    cases h : args.isEmpty
    · simp
    · simp [List.isEmpty_iff.mp h]
  simp only [List.foldl]
  cases endo with
  | none =>
    simp only [dlookup_dictInsert, dlookup_dictSetDefault, hta]
    by_cases hk1 : k = "start"
    · subst hk1; simp
    · simp only [if_neg (show ¬"start" = k from fun h => hk1 h.symm)]
      by_cases hk2 : k = "end"
      · subst hk2; simp
      · simp only [if_neg (show ¬"end" = k from fun h => hk2 h.symm)]
        by_cases hk3 : k = "api_key"
        · subst hk3; simp
        · simp only [if_neg (show ¬"api_key" = k from fun h => hk3 h.symm)]
          by_cases hk4 : k = "offset"
          · subst hk4; simp
          · simp only [if_neg (show ¬"offset" = k from fun h => hk4 h.symm)]
            by_cases hk5 : k = "average"
            · subst hk5; simp
            · simp only [if_neg (show ¬"average" = k from fun h => hk5 h.symm)]
  | some e =>
    simp only [dlookup_dictInsert, dlookup_dictSetDefault, hta]
    by_cases hk1 : k = "start"
    · subst hk1; simp
    · simp only [if_neg (show ¬"start" = k from fun h => hk1 h.symm)]
      by_cases hk2 : k = "end"
      · subst hk2; simp
      · simp only [if_neg (show ¬"end" = k from fun h => hk2 h.symm)]
        by_cases hk3 : k = "api_key"
        · subst hk3; simp
        · simp only [if_neg (show ¬"api_key" = k from fun h => hk3 h.symm)]
          by_cases hk4 : k = "offset"
          · subst hk4; simp
          · simp only [if_neg (show ¬"offset" = k from fun h => hk4 h.symm)]
            by_cases hk5 : k = "average"
            · subst hk5; simp
            · simp only [if_neg (show ¬"average" = k from fun h => hk5 h.symm)]

/-- Claim C7: the dual-feed merge of `get_all_historical` and
`get_all_historical_between` is an inner join on the `created_at` key: a
timestamp appears among the merged rows iff some primary row and some
secondary row both carry it; concretely, primary keys `{1, 2}` merged with
secondary keys `{2, 3}` yield exactly the key `2`. -/
theorem pdMergeInner_created_at_iff :
    (∀ (α β γ : Type) [DecidableEq α] (p : List (α × β)) (s : List (α × γ)) (t : α),
      (∃ row ∈ pdMergeInner p s, row.1 = t) ↔
        ((∃ x ∈ p, x.1 = t) ∧ ∃ y ∈ s, y.1 = t)) ∧
    pdMergeInner [((1 : Int), (10 : Int)), (2, 20)] [((2 : Int), (30 : Int)), (3, 40)] =
      [(2, 20, 30)] := by
  constructor
  · intro α β γ inst p s t
    simp only [pdMergeInner, List.mem_flatMap, List.mem_map, List.mem_filter]
    constructor
    · rintro ⟨row, ⟨x, hx, y, ⟨hy, hyx⟩, hrow⟩, hkey⟩
      subst hrow
      have hyx2 : y.1 = x.1 := of_decide_eq_true hyx
      exact ⟨⟨x, hx, hkey⟩, ⟨y, hy, by rw [hyx2]; exact hkey⟩⟩
    · rintro ⟨⟨x, hx, hxk⟩, y, hy, hyk⟩
      exact ⟨(x.1, x.2, y.2), ⟨x, hx, y, ⟨hy, decide_eq_true (by rw [hxk, hyk])⟩, rfl⟩, hxk⟩
  · decide

/-- Claim C8 (counterexample): on the raw mapping `{'ParentID': None}` the
`ParentID` key *is present* in the snapshot, yet the constructed record's
role is root (`type = 'parent'`): channel.py line 55 tests
`self.parent is None`, which cannot distinguish an absent key from a present
null value, so presence alone does not imply the child role. -/
theorem channel_role_parentid_null_counterexample :
    hasKey [("ParentID", PyVal.none)] "ParentID" = true ∧
    (channel_setup [("ParentID", PyVal.none)]).map (fun r => r.type) = .ok "parent" :=
  ⟨rfl, rfl⟩

/-- Claim C8 (amended): the record's role is child iff `ParentID` is present
*with a non-null value* (absent or null yields root); the stored role alone
selects the column table `clean_data` applies for a given feed (two records
with the same role select the same table, the root role selecting the
parent table and any other role the child table); and the root and child
primary-feed tables rename the same raw column to different canonical
names. -/
theorem role_and_column_selection :
    (∀ (d : RawAttrs) (r : ChannelRec), channel_setup d = .ok r →
      (r.type = "child" ↔ ¬ dget d "ParentID" = PyVal.none)) ∧
    (∀ (r r2 : ChannelRec) (f : String), r.type = r2.type →
      clean_data_columns r f = clean_data_columns r2 f) ∧
    (∀ r : ChannelRec,
      (r.type = "parent" → clean_data_columns r "primary" = PARENT_PRIMARY_COLS) ∧
      (r.type ≠ "parent" → clean_data_columns r "primary" = CHILD_PRIMARY_COLS)) ∧
    (∃ c : String, renameColumns PARENT_PRIMARY_COLS [c] ≠ renameColumns CHILD_PRIMARY_COLS [c]) := by
  refine ⟨?_, ?_, ?_, ⟨"field6", by decide⟩⟩
  · intro d r h
    obtain ⟨-, -, -, ht, -, -, -, -⟩ := channel_setup_fields d r h
    rw [ht]
    cases hn : isNone (dget d "ParentID") with
    | false =>
      simp only [Bool.false_eq_true, if_false]
      simp only [true_iff, eq_self_iff_true]
      intro hveq
      rw [hveq] at hn
      simp [isNone] at hn
    | true =>
      have hnn : dget d "ParentID" = PyVal.none := by
        cases hv : dget d "ParentID" <;> simp_all [isNone]
      simp [hnn]
  · intro r r2 f h
    unfold clean_data_columns
    rw [h]
  · intro r
    constructor
    · intro h
      simp [clean_data_columns, h]
    · intro h
      simp [clean_data_columns, h]

/-- Witness for the amended C8 theorem: a present integer `ParentID` yields
the child role; two child records select the same tables; the record from an
empty snapshot is root and selects the parent primary table. -/
theorem role_and_column_selection_witness :
    ((exceptOk (channel_setup [("ParentID", PyVal.int 77)])).type = "child" ↔
      ¬ dget [("ParentID", PyVal.int 77)] "ParentID" = PyVal.none) ∧
    clean_data_columns (exceptOk (channel_setup [("ParentID", PyVal.int 77)])) "secondary" =
      clean_data_columns (exceptOk (channel_setup [("ParentID", PyVal.str "x")])) "secondary" ∧
    clean_data_columns (exceptOk (channel_setup [])) "primary" = PARENT_PRIMARY_COLS :=
  ⟨role_and_column_selection.1 _ _ rfl,
   role_and_column_selection.2.1 _ _ "secondary" rfl,
   (role_and_column_selection.2.2.1 _).1 rfl⟩

/-- Concatenation law for lookup on association lists. -/
theorem dlookup_append (l m : List (String × PyVal)) (k : String) :
    dlookup (l ++ m) k = optOr (dlookup l k) (dlookup m k) := by
  induction l with
  | nil => simp [dlookup, optOr]
  | cons hd t ih =>
    obtain ⟨k2, v⟩ := hd
    by_cases h : k2 = k <;> simp [dlookup, h, ih, optOr]

/-- Assigning a fresh key to a dict appends the entry at the end. -/
theorem dictInsert_append (l : List (String × PyVal)) (k : String) (v : PyVal)
    (h : hasKey l k = false) : dictInsert l k v = l ++ [(k, v)] := by
  induction l with
  | nil => simp [dictInsert]
  | cons hd t ih =>
    obtain ⟨k2, v2⟩ := hd
    unfold dictInsert
    by_cases h2 : k2 = k
    · subst h2
      simp [hasKey, dlookup] at h
    · have ht : hasKey t k = false := by
        simpa [hasKey, dlookup, h2] using h
      simp only [if_neg h2, List.cons_append]
      rw [ih ht]

/-- Key presence depends only on the dict's key list. -/
theorem hasKey_keys (l : List (String × PyVal)) (k : String) :
    hasKey l k = decide (k ∈ l.map Prod.fst) := by
  induction l with
  | nil => simp [hasKey, dlookup]
  | cons hd t ih =>
    obtain ⟨k2, v⟩ := hd
    by_cases h : k2 = k
    · simp [hasKey, dlookup, h]
    · have h2 : ¬ k = k2 := fun he => h he.symm
      simp only [hasKey, dlookup, if_neg h] at ih ⊢
      rw [ih]
      simp [List.mem_cons, h2]

/-- Filling a dict by assigning a sequence of pairwise-fresh keys appends
them in order. -/
theorem foldl_insert_concat (kvs acc : List (String × PyVal))
    (h1 : ∀ k2 ∈ kvs.map Prod.fst, hasKey acc k2 = false)
    (h2 : (kvs.map Prod.fst).Nodup) :
    kvs.foldl (fun a kv => dictInsert a kv.1 kv.2) acc = acc ++ kvs := by
  induction kvs generalizing acc with
  | nil => simp
  | cons hd t ih =>
    simp only [List.foldl]
    rw [dictInsert_append acc hd.1 hd.2 (h1 hd.1 (by simp))]
    have hnodup : (t.map Prod.fst).Nodup := by
      simp only [List.map] at h2
      exact h2.of_cons
    have hfresh : ∀ k2 ∈ t.map Prod.fst, hasKey (acc ++ [(hd.1, hd.2)]) k2 = false := by
      intro k2 hk2
      have ha : hasKey acc k2 = false := h1 k2 (by simp [hk2])
      have hne : ¬ hd.1 = k2 := by
        intro he
        have : hd.1 ∈ t.map Prod.fst := he ▸ hk2
        simp only [List.map] at h2
        exact (List.nodup_cons.mp h2).1 this
      unfold hasKey at ha ⊢
      rw [dlookup_append]
      cases hq : dlookup acc k2 with
      | none => simp [optOr, dlookup, hne]
      | some w => rw [hq] at ha; simp at ha
    rw [ih (acc ++ [(hd.1, hd.2)]) hfresh hnodup]
    simp

/-- Claim C9: flattening loses nothing: `as_flat_dict` equals `as_dict` with
the category level removed (the concatenation of the four category lists, so
every key of every category appears with the same value), and the keys
across the four categories are pairwise distinct, so no entry is silently
overwritten. -/
theorem as_flat_dict_complete (r : ChannelRec) :
    as_flat_dict r = (as_dict r).flatMap Prod.snd ∧
    ((as_dict r).flatMap (fun c => c.2.map Prod.fst)).Nodup := by
  have km : (metaList r).map Prod.fst =
      ["id", "parent", "lat", "lon", "name", "location_type"] := rfl
  have kd : (dataList r).map Prod.fst =
      ["pm_2.5", "temp_f", "temp_c", "humidity", "pressure", "p_0_3_um",
       "p_0_5_um", "p_1_0_um", "p_2_5_um", "p_5_0_um", "p_10_0_um",
       "pm1_0_cf_1", "pm2_5_cf_1", "pm10_0_cf_1", "pm1_0_atm", "pm2_5_atm",
       "pm10_0_atm"] := rfl
  have kg : (diagList r).map Prod.fst =
      ["last_seen", "model", "adc", "rssi", "hidden", "flagged", "downgraded",
       "age", "brightness", "hardware", "version", "last_update_check",
       "created", "uptime", "is_owner"] := rfl
  have ks : (statsList r).map Prod.fst =
      ["10min_avg", "30min_avg", "1hour_avg", "6hour_avg", "1day_avg",
       "1week_avg"] := rfl
  constructor
  · simp only [as_flat_dict, as_dict, List.foldl_cons, List.foldl_nil,
      List.flatMap_cons, List.flatMap_nil]
    rw [foldl_insert_concat (metaList r) []
      (by simp only [hasKey_keys, km]; decide) (by rw [km]; decide)]
    rw [foldl_insert_concat (dataList r) ([] ++ metaList r)
      (by simp only [hasKey_keys, List.map_append, List.nil_append, km, kd]; decide)
      (by rw [kd]; decide)]
    rw [foldl_insert_concat (diagList r) ([] ++ metaList r ++ dataList r)
      (by simp only [hasKey_keys, List.map_append, List.nil_append, km, kd, kg]; decide)
      (by rw [kg]; decide)]
    rw [foldl_insert_concat (statsList r) ([] ++ metaList r ++ dataList r ++ diagList r)
      (by simp only [hasKey_keys, List.map_append, List.nil_append, km, kd, kg, ks]; decide)
      (by rw [ks]; decide)]
    simp [List.append_assoc]
  · simp only [as_dict, List.flatMap_cons, List.flatMap_nil]
    rw [km, kd, kg, ks]
    decide

/-- Claim C10: `get_thingspeak_url` leaves the caller's options dict
unchanged: line 207 copies the mapping (`thingspeak_args.copy()`) — or
line 209 allocates a fresh dict — before the defaults and `start`/`end`
are written, so in the store model every pre-existing dict cell reads the
same after the call as before it. -/
theorem get_thingspeak_url_frame (s : PyStore) (r : ChannelRec) (f : String)
    (start : PyDate) (endo : Option PyDate) (argref : Option Nat) (fmt : String)
    (i : Nat) (h : i < s.length) :
    storeGet (get_thingspeak_url_st s r f start endo argref fmt).1 i = storeGet s i := by
  unfold get_thingspeak_url_st
  by_cases hf : f = "primary" ∨ f = "secondary"
  · rw [if_pos hf]
    simp only [storeGet]
    rw [List.get?_append h]
  · rw [if_neg hf]

/-- Witness for C10: a one-dict store passed as the options argument is
unchanged by the call. -/
theorem get_thingspeak_url_frame_witness :
    (0 : Nat) < ([[("end", PyVal.str "x")]] : PyStore).length ∧
    storeGet (get_thingspeak_url_st [[("end", PyVal.str "x")]]
        (exceptOk (channel_setup [])) "primary" ⟨2020, 1, 2⟩ Option.none (some 0) "csv").1 0 =
      storeGet [[("end", PyVal.str "x")]] 0 :=
  ⟨by decide,
   get_thingspeak_url_frame [[("end", PyVal.str "x")]] (exceptOk (channel_setup []))
     "primary" ⟨2020, 1, 2⟩ Option.none (some 0) "csv" 0 (by decide)⟩
